import Mathlib

/-!
Verification development for the sdfp-drift batch pipeline
(`drift_correction.py`).  The Python source is shallowly embedded:
DataFrames become lists of structures, timestamps and depths become
rationals (timestamps are measured in minutes), pandas column arithmetic
becomes per-row arithmetic, and the external collaborators (database
reads/writes, the Mailchimp notify call, the statsmodels LOWESS fit)
become explicit parameters or `Option`/`Except` values.
-/

set_option linter.unusedVariables false

/-- Generic insertion of an element into a list sorted by the boolean
relation `le`; used to model `pandas.sort_values` (stable sort). -/
def insertLe {α : Type} (le : α → α → Bool) (a : α) : List α → List α
  | [] => [a]
  | b :: t => if le a b then a :: b :: t else b :: insertLe le a t

/-- Stable insertion sort by `le`; models `pandas.sort_values`. -/
def sortLe {α : Type} (le : α → α → Bool) : List α → List α
  | [] => []
  | a :: t => insertLe le a (sortLe le t)

/-! ## QualityFilter (`qa_qc_flag`, source lines 58-67)

One row of the `sensor_water_depth` frame.  The `qa_qc_flag` field models
the presence of the column of that name on the frame: `none` means the
column is absent (the state of the frame before `qa_qc_flag` runs). -/

structure QRow where
  place : String
  sensor_ID : String
  date : ℚ
  sensor_water_depth : ℚ
  qa_qc_flag : Option Bool
deriving DecidableEq

instance : Inhabited QRow := ⟨⟨"", "", 0, 0, none⟩⟩

/-- Index of the previous row of the same sensor, in frame order: models
`x.groupby(by="sensor_ID")[...].shift(1)` picking the preceding row of
the group. -/
def prev_same_sensor (x : List QRow) (i : Nat) : Option Nat :=
  ((List.range i).filter
    (fun j => (x.getD j default).sensor_ID == (x.getD i default).sensor_ID)).getLast?

/-- The flag computed for row `i`:
`lag_sensor_water_depth / lag_duration_minutes` in absolute value against
the threshold (source line 63).  A row with no predecessor in its group
has a NaN lag, and `np.abs(NaN) > threshold` is `False`, so it is never
flagged. -/
def qa_flag_at (delta_wd_per_minute : ℚ) (x : List QRow) (i : Nat) : Bool :=
  match prev_same_sensor x i with
  | none => false
  | some j =>
    let lag_sensor_water_depth :=
      (x.getD i default).sensor_water_depth - (x.getD j default).sensor_water_depth
    let lag_duration_minutes := (x.getD i default).date - (x.getD j default).date
    decide (|lag_sensor_water_depth / lag_duration_minutes| > delta_wd_per_minute)

/-- Writes the `qa_qc_flag` column onto every row of `t`, where `k` is the
frame index of the head of `t` and `x` the whole frame (needed for the
group lookback). -/
def annotate_qa (th : ℚ) (x : List QRow) : Nat → List QRow → List QRow
  | _, [] => []
  | k, r :: t => { r with qa_qc_flag := some (qa_flag_at th x k) } :: annotate_qa th x (k + 1) t

/-- Model of calling `qa_qc_flag(x)`.  The Python function assigns new
columns to `x` itself (lines 60-63), drops the helper columns in place
(line 65) and returns `x`; so the call returns a pair
(return value, post-state of the caller's frame), and both components are
the same annotated frame. -/
def qa_qc_flag (th : ℚ) (x : List QRow) : List QRow × List QRow :=
  let flagged := annotate_qa th x 0 x
  (flagged, flagged)

/-- Strips the `qa_qc_flag` column from a row. -/
def eraseQa (r : QRow) : QRow := { r with qa_qc_flag := none }

/-! ## SurveyMatcher (`match_measurements_to_survey`, source lines 70-109) -/

structure Survey where
  place : String
  sensor_ID : String
  date_surveyed : ℚ
  sensor_elevation : ℚ
  road_elevation : ℚ
deriving DecidableEq

/-- `pd.cut(dates, bins = survey_dates ++ [utcnow], labels = survey_dates)`
with the pandas default `right=True`: the bins are the left-open,
right-closed intervals `(d_k, d_{k+1}]`, the label of a bin is its left
edge, and a value in no bin gets NaN (here `none`).  Source line 101. -/
def cutEpoch : List ℚ → ℚ → ℚ → Option ℚ
  | [], _, _ => none
  | [d], now, t => if d < t ∧ t ≤ now then some d else none
  | d0 :: d1 :: rest, now, t =>
    if d0 < t ∧ t ≤ d1 then some d0 else cutEpoch (d1 :: rest) now t

/-- The `date_surveyed` value attached to a reading at time `t` by
`match_measurements_to_survey` for the survey-date list `ds` (sorted,
distinct): one survey uses `date >= survey_dates[0]` (source line 97),
several use the right-closed cut above (source lines 100-101). -/
def survey_epoch (ds : List ℚ) (now t : ℚ) : Option ℚ :=
  match ds with
  | [] => none
  | [d] => if t ≥ d then some d else none
  | d0 :: d1 :: rest => cutEpoch (d0 :: d1 :: rest) now t

/-- Modelled from the spec's wording for comparison: the claimed epoch of
a reading is the greatest `surveyed_at ≤` its timestamp (`ds` sorted). -/
def survey_epoch_spec (ds : List ℚ) (t : ℚ) : Option ℚ :=
  (ds.filter (fun d => decide (d ≤ t))).getLast?

/-! ## BaselineEstimator (`smooth_baseline_wl`, source lines 135-177)

One point of a (sensor, survey-epoch) segment, already restricted to the
two columns the smoothing reads: timestamp (minutes) and water depth. -/

structure SRow where
  date : ℚ
  sensor_water_depth : ℚ
deriving DecidableEq

instance : Inhabited SRow := ⟨⟨0, 0⟩⟩

/-- Trailing rolling minimum with a 2-day time window at index `i`:
`selected_data.set_index("date")["sensor_water_depth"].rolling('2d').min()`
(source line 143).  For an offset window pandas closes on the right, so
the window at time `t` is `(t - 2880, t]` in minutes. -/
def rolling_min_at (seg : List SRow) (i : Nat) : ℚ :=
  let t := (seg.getD i default).date
  let window := (seg.take (i + 1)).filter (fun r => decide (t - r.date < 2880))
  match window.map (fun r => r.sensor_water_depth) with
  | [] => 0
  | v :: vs => vs.foldl min v

/-- The rolling-minimum column of a segment. -/
def rolling_min_list (seg : List SRow) : List ℚ :=
  (List.range seg.length).map (rolling_min_at seg)

/-- Candidate-changepoint mask (source line 148).  `np.select` tries
`lag_min_wd_per_minute != 0` first; at the first row the lag is NaN and
`NaN != 0` is True, so row 0 is always a candidate.  The last row is a
candidate through the second condition `date == date.max()` (the segment
is sorted by date). -/
def change_candidate (seg : List SRow) (i : Nat) : Bool :=
  if i = 0 then true
  else
    let lag_min_wd := rolling_min_at seg i - rolling_min_at seg (i - 1)
    let lag_duration_minutes := (seg.getD i default).date - (seg.getD (i - 1) default).date
    if lag_min_wd / lag_duration_minutes ≠ 0 then true
    else decide (i = seg.length - 1)

/-- `np.quantile` with the default linear interpolation: sort ascending,
let `h = p * (n - 1)`, and interpolate between the neighbouring order
statistics. -/
def np_quantile (l : List ℚ) (p : ℚ) : ℚ :=
  let s := sortLe (fun a b => decide (a ≤ b)) l
  let n := s.length
  let h : ℚ := p * ((n : ℚ) - 1)
  let i : Nat := (Int.floor h).toNat
  let lo := s.getD i 0
  let hi := s.getD (min (i + 1) (n - 1)) 0
  lo + (h - (i : ℚ)) * (hi - lo)

/-- Surviving changepoints of a segment (source lines 150-153): the
candidate rows whose rolling-minimum value lies between the 1st and 75th
percentile of the segment's rolling-minimum column, kept as
(date, rolling_min_wd) pairs. -/
def change_pts (seg : List SRow) : List (ℚ × ℚ) :=
  let rm := rolling_min_list seg
  let lower_quantile := np_quantile rm (1 / 100)
  let upper_quantile := np_quantile rm (75 / 100)
  (List.range seg.length).filterMap (fun i =>
    if change_candidate seg i
        ∧ lower_quantile ≤ rolling_min_at seg i
        ∧ rolling_min_at seg i ≤ upper_quantile
    then some ((seg.getD i default).date, rolling_min_at seg i)
    else none)

/-- Forward fill (`interpolate(method="pad")`) with carried last value. -/
def ffill (carry : Option ℚ) : List (Option ℚ) → List (Option ℚ)
  | [] => []
  | none :: t => carry :: ffill carry t
  | some v :: t => some v :: ffill (some v) t

/-- Backward fill (`interpolate(method="backfill")`). -/
def bfill (l : List (Option ℚ)) : List (Option ℚ) :=
  (ffill none l.reverse).reverse

/-- The column assignment of source line 157,
`merged_data_and_change_pts["smooth_min_wd"] = rolling_min["rolling_min_wd"]`.
`selected_data` keeps its frame-index labels from the per-sensor frame,
while `rolling_min` has a fresh `0..m-1` RangeIndex after
`reset_index()`; pandas aligns the assignment on index labels, so the
segment row with label `j` receives the rolling-minimum value at
POSITION `j` of the same segment — its own value only when its label
equals its position — and NaN (`none`) when `j` is outside `0..m-1`.
`labels` is the list of frame-index labels of the segment's rows, in
row order. -/
def aligned_rolling_min (seg : List SRow) (labels : List Nat) : List (Option ℚ) :=
  labels.map (fun j => if j < seg.length then some (rolling_min_at seg j) else none)

/-- Smoothing of one (sensor, survey-epoch) segment, the body of the
`for selected_survey in survey_dates` loop of `smooth_baseline_wl`
(source lines 140-175), returning the `smooth_min_wd` column (`none` is
NaN).  `labels` is the list of frame-index labels of the segment's rows
in the per-sensor frame (0-based positions; only the sensor's first
segment has labels `0..m-1`).

Branching on the surviving changepoints is sequential `if`s in the
source, not `elif`s:

* `change_pts.empty` (line 155): line 157 assigns the reset-index
  rolling-minimum Series onto `selected_data` in place BY INDEX-LABEL
  ALIGNMENT (see `aligned_rolling_min`); the `< 3` merge that follows
  joins on the now-common columns `date` and `smooth_min_wd` against an
  empty right side and keeps those (possibly shifted or NaN) values, and
  the line-161 pad then backfill passes fill the remaining NaN.
* `0 < count < 3` (line 159): `pd.merge` builds a fresh frame, so no
  alignment is involved: a left join on `date` places the changepoint
  values at their timestamps, NaN elsewhere; forward fill then backward
  fill (piecewise constant).
* `count ≥ 3` (line 163): LOWESS fit through the changepoints followed by
  time interpolation; the statsmodels fit is an external collaborator and
  is abstracted as the parameter `lowess_branch`. -/
def smooth_baseline_segment (lowess_branch : List SRow → List (ℚ × ℚ) → List (Option ℚ))
    (labels : List Nat) (seg : List SRow) : List (Option ℚ) :=
  let cps := change_pts seg
  if cps.isEmpty then bfill (ffill none (aligned_rolling_min seg labels))
  else if cps.length < 3 then
    let joined := seg.map (fun r => (cps.find? (fun c => c.1 == r.date)).map (fun c => c.2))
    bfill (ffill none joined)
  else lowess_branch seg cps

/-! ## DriftCorrector (`correct_drift`, source lines 179-194) -/

structure DRow where
  place : String
  sensor_ID : String
  date : ℚ
  sensor_water_depth : ℚ
  sensor_elevation : ℚ
  road_elevation : ℚ
  smooth_min_wd : ℚ
deriving DecidableEq

structure DOut where
  place : String
  sensor_ID : String
  date : ℚ
  sensor_water_depth : ℚ
  sensor_elevation : ℚ
  road_elevation : ℚ
  smoothed_min_water_depth : ℚ
  sensor_water_level : ℚ
  road_water_level : ℚ
  sensor_water_level_adj : ℚ
  road_water_level_adj : ℚ
deriving DecidableEq

/-- `correct_drift(x, start_date, end_date)`: the four level columns
(source lines 182-185) followed by the inclusive date-window filter
(source line 188) and the column selection (source line 192). -/
def correct_drift (x : List DRow) (start_date end_date : ℚ) : List DOut :=
  (x.map (fun r =>
    let sensor_water_level := r.sensor_elevation + r.sensor_water_depth
    let road_water_level := sensor_water_level - r.road_elevation
    { place := r.place
      sensor_ID := r.sensor_ID
      date := r.date
      sensor_water_depth := r.sensor_water_depth
      sensor_elevation := r.sensor_elevation
      road_elevation := r.road_elevation
      smoothed_min_water_depth := r.smooth_min_wd
      sensor_water_level := sensor_water_level
      road_water_level := road_water_level
      sensor_water_level_adj := sensor_water_level - r.smooth_min_wd
      road_water_level_adj := road_water_level - r.smooth_min_wd : DOut })).filter
    (fun o => decide (start_date ≤ o.date) && decide (o.date ≤ end_date))

/-! ## FloodDetector (`detect_flooding`, source lines 210-229)

A drift-corrected reading, restricted to the columns `detect_flooding`
reads. -/

structure CReading where
  place : String
  sensor_ID : String
  date : ℚ
  sensor_water_level_adj : ℚ
  road_water_level_adj : ℚ
  alert_threshold : ℚ
deriving DecidableEq

/-- A `flood_status` row (the columns selected on source line 229). -/
structure FSRow where
  place : String
  sensor_ID : String
  latest_measurement : ℚ
  current_time : ℚ
  is_flooding : Bool
  alert_sent : Bool
deriving DecidableEq

/-- The staleness cutoff, `datetime.timedelta(minutes=40)` (source line 221). -/
def cutoff_time : ℚ := 40

/-- `last_measurement["above_alert_wl"]` (source line 219): the comparison
is `sensor_water_level_adj >= alert_threshold`. -/
def above_alert_wl (r : CReading) : Bool :=
  decide (r.sensor_water_level_adj ≥ r.alert_threshold)

/-- One sensor's group of `detect_flooding` (source lines 211-229): sort
by date, keep the last 3 rows, compute their sampling intervals and the
minimum interval (these two columns are not among the columns selected
into the output), then build the flood-status row from the single latest
row: `is_flooding = (time_since_measurement > cutoff_time) AND
above_alert_wl`, `alert_sent = False`. -/
def detect_group (g : List CReading) (current_time : ℚ) : Option FSRow :=
  let sorted := sortLe (fun a b => decide (a.date ≤ b.date)) g
  let latest_measurements := sorted.drop (sorted.length - 3)
  let sample_interval :=
    (latest_measurements.zip latest_measurements.tail).map (fun p => p.2.date - p.1.date)
  let min_interval := sample_interval.foldl min (sample_interval.headD 0)
  (latest_measurements.getLast?).map (fun r =>
    { place := r.place
      sensor_ID := r.sensor_ID
      latest_measurement := r.date
      current_time := current_time
      is_flooding := decide (current_time - r.date > cutoff_time) && above_alert_wl r
      alert_sent := false })

/-- `detect_flooding(x)` over the whole frame: group by `sensor_ID` and
apply the per-group computation.  `current_time` stands for the
`datetime.datetime.utcnow()` read on source line 215. -/
def detect_flooding (x : List CReading) (current_time : ℚ) : List FSRow :=
  let sensors := (x.map (fun r => r.sensor_ID)).dedup
  sensors.filterMap (fun s =>
    detect_group (x.filter (fun r => r.sensor_ID == s)) current_time)

/-! ## AlertStateMachine (`alert_flooding`, source lines 290-342) -/

/-- The `postgres_upsert` write of `rows` into `table`, keyed by
(place, sensor_ID) (source lines 197-207, 314): conflicting old rows are
overwritten, everything else is kept. -/
def upsert_rows (table rows : List FSRow) : List FSRow :=
  rows ++ table.filter (fun t =>
    !(rows.any (fun r => r.place == t.place && r.sensor_ID == t.sensor_ID)))

/-- The body of the `for selected_place in places` loop of
`alert_flooding` (source lines 299-340), returning the rows written for
that place and whether `send_alert` was invoked.  `flood_status_df` is
the snapshot read once before the loop (source line 292), so every
iteration consults the pre-run state.  In both flooding branches the
persisted rows carry `alert_sent = True` (source lines 310 and 322); the
result of `send_alert` is never consulted. -/
def process_place (cands flood_status_df : List FSRow) (p : String) :
    List FSRow × Bool :=
  let site_data := cands.filter (fun r => r.place == p)
  let flood_status_site := flood_status_df.filter (fun r => r.place == p)
  let any_flooding := site_data.any (fun r => r.is_flooding)
  if any_flooding then
    let site_flooding_data :=
      (site_data.filter (fun r => r.is_flooding)).map (fun r => { r with alert_sent := true })
    let alert_already_sent := flood_status_site.any (fun r => r.alert_sent)
    if alert_already_sent then (site_flooding_data, false)
    else (site_flooding_data, true)
  else (site_data, false)

/-- The lexicographic (place, sensor_ID) row order of
`sort_values(['place','sensor_ID'])` on source line 46. -/
def fs_order (a b : FSRow) : Bool :=
  (a.place == b.place && decide (a.sensor_ID ≤ b.sensor_ID)) || decide (a.place < b.place)

/-- `get_flood_status(engine)` (source lines 44-55): sort by place and
sensor and — when the read produced no rows — warn and fall through the
bare `return` on line 53, handing the caller `None` instead of an empty
frame. -/
def get_flood_status (tbl : List FSRow) : Option (List FSRow) :=
  let flood_status := sortLe fs_order tbl
  if flood_status.length = 0 then none else some flood_status

/-- `alert_flooding(x, engine)` for one run.  `flood_status_tbl` is the
pre-run content of the `flood_status` table, read once through
`get_flood_status` before the loop (source line 292); `current_time` is
the wall clock; `persist_ok` says whether the guarded `to_sql` writes
succeed (a failed write only warns, source lines 316-317); `notify_ok`
is the outcome of the external Mailchimp send — `send_alert` swallows
its own failures (source lines 283-287), so `alert_flooding` never
reads this value.

When the table read returned no rows, `flood_status_df` is `None` and
the first loop iteration raises an `AttributeError` at
`flood_status_df.query(...)` (source line 301); with no places to
process the loop body never runs and the function returns.  On the
normal path it returns the post-run table content and the list of
places for which `send_alert` was invoked. -/
def alert_flooding (x : List CReading) (flood_status_tbl : List FSRow)
    (current_time : ℚ) (persist_ok notify_ok : Bool) :
    Except String (List FSRow × List String) :=
  let is_flooding_df := detect_flooding x current_time
  let places := (is_flooding_df.map (fun r => r.place)).dedup
  match get_flood_status flood_status_tbl with
  | none =>
    if places.isEmpty then Except.ok (flood_status_tbl, [])
    else Except.error "AttributeError: NoneType object has no attribute query"
  | some flood_status_df =>
    Except.ok
      (places.foldl (fun t p =>
          if persist_ok then upsert_rows t (process_place is_flooding_df flood_status_df p).1
          else t) flood_status_tbl,
        places.filter (fun p => (process_place is_flooding_df flood_status_df p).2))

/-! ## Storage reads and the baseline stage of `main` (for the
DataUnavailable behaviour, source lines 31-42 and 112-132) -/

/-- `get_surveys(engine)`: sort, drop duplicates, and — when the read
produced no rows — warn and fall through the bare `return`, i.e. hand the
caller `None` instead of an empty frame (source lines 38-40). -/
def get_surveys (tbl : List Survey) : Option (List Survey) :=
  let surveys := (sortLe (fun a b =>
    (a.place == b.place && decide (a.date_surveyed ≤ b.date_surveyed))
      || decide (a.place < b.place)) tbl).dedup
  if surveys.length = 0 then none else some surveys

/-- A row of the baseline stage's output: a matched reading with its
survey epoch and smoothed baseline value. -/
structure BRow where
  sensor_ID : String
  date : ℚ
  sensor_water_depth : ℚ
  date_surveyed : ℚ
  smooth_min_wd : Option ℚ
deriving DecidableEq

/-- The per-sensor body of `calc_baseline_wl` (source lines 127-130):
match the sensor's readings to its survey dates, then smooth each
survey-epoch segment.  A segment's frame-index labels (the positions of
its rows in the per-sensor frame, which drive the line-157 alignment)
are passed to the smoothing.  Readings whose epoch is NaN (unmatched)
are not modelled beyond being dropped from every epoch group. -/
def baseline_for_sensor (lowess_branch : List SRow → List (ℚ × ℚ) → List (Option ℚ))
    (current_time : ℚ) (rows : List QRow) (svs : List Survey) : List BRow :=
  let survey_dates := (svs.map (fun s => s.date_surveyed)).dedup
  let withEpoch := rows.map (fun r => (r, survey_epoch survey_dates current_time r.date))
  let epochs := (withEpoch.filterMap (fun p => p.2)).dedup
  epochs.flatMap (fun e =>
    let labels := (List.range withEpoch.length).filter
      (fun i => (withEpoch.getD i (default, none)).2 == some e)
    let seg := (withEpoch.filter (fun p => p.2 == some e)).map
      (fun p => SRow.mk p.1.date p.1.sensor_water_depth)
    let sm := smooth_baseline_segment lowess_branch labels seg
    (seg.zip sm).map (fun q =>
      { sensor_ID := (rows.headD default).sensor_ID
        date := q.1.date
        sensor_water_depth := q.1.sensor_water_depth
        date_surveyed := e
        smooth_min_wd := q.2 }))

/-- `calc_baseline_wl(x, surveys)` as called from `main` with the result
of `get_surveys` (source lines 112-132, 364, 367).  When `get_surveys`
returned `None` and there is at least one sensor to process, the first
loop iteration evaluates `surveys.query(...)` on `None` and the run
aborts with an `AttributeError`; with no sensors the loop body never
runs. -/
def calc_baseline_wl (lowess_branch : List SRow → List (ℚ × ℚ) → List (Option ℚ))
    (current_time : ℚ) (x : List QRow) (surveys : Option (List Survey)) :
    Except String (List BRow) :=
  (((x.map (fun r => r.sensor_ID)).dedup).foldlM (fun acc s =>
    match surveys with
    | none => Except.error "AttributeError: NoneType object has no attribute query"
    | some svs => Except.ok
        (acc ++ baseline_for_sensor lowess_branch current_time
          (x.filter (fun r => r.sensor_ID == s))
          (svs.filter (fun sv => sv.sensor_ID == s)))) [] : Except String (List BRow))

/-! ## Helper lemmas -/

/-- Taking the tail-3 window of a list does not change its last element. -/
theorem getLast?_drop_sub_three {α : Type} (l : List α) :
    (l.drop (l.length - 3)).getLast? = l.getLast? := by
  cases l with
  | nil => rfl
  | cons a t =>
    rw [List.getLast?_drop]
    have h : ¬ (a :: t).length ≤ (a :: t).length - 3 :=
      Nat.not_le.2 (Nat.sub_lt (by simp) (by norm_num))
    rw [if_neg h]

/-- The flood-status row `detect_group` emits is built from the latest
row of the date-sorted group; the `sample_interval` and `min_interval`
columns it also computes are dropped by the output column selection. -/
theorem detect_group_eq (g : List CReading) (current_time : ℚ) :
    detect_group g current_time =
      ((sortLe (fun a b => decide (a.date ≤ b.date)) g).getLast?).map (fun r =>
        { place := r.place
          sensor_ID := r.sensor_ID
          latest_measurement := r.date
          current_time := current_time
          is_flooding := decide (current_time - r.date > cutoff_time) && above_alert_wl r
          alert_sent := false }) := by
  simp only [detect_group, getLast?_drop_sub_three]

/-- Row `i` of the annotated frame is row `i` of the input with the
`qa_qc_flag` column set to the computed flag. -/
theorem annotate_qa_getD (th : ℚ) (x : List QRow) :
    ∀ (t : List QRow) (k i : Nat), i < t.length →
      (annotate_qa th x k t).getD i default =
        { t.getD i default with qa_qc_flag := some (qa_flag_at th x (k + i)) }
  | [], _, i, h => absurd h (by simp)
  | r :: t, k, 0, _ => by simp [annotate_qa]
  | r :: t, k, i + 1, h => by
    have ih := annotate_qa_getD th x t (k + 1) i (by simpa using h)
    simpa [annotate_qa, Nat.add_assoc, Nat.add_comm 1 i] using ih

/-- Erasing the `qa_qc_flag` column undoes the annotation. -/
theorem annotate_qa_map_eraseQa (th : ℚ) (x : List QRow) :
    ∀ (t : List QRow) (k : Nat), (annotate_qa th x k t).map eraseQa = t.map eraseQa
  | [], _ => rfl
  | r :: t, k => by
    simp [annotate_qa, eraseQa, annotate_qa_map_eraseQa th x t (k + 1)]

/-! ## Claim theorems -/

/-- C6: every output row of `correct_drift` satisfies
`sensor_water_level = sensor_elevation + water_depth`,
`road_water_level = sensor_water_level - road_elevation`,
`sensor_water_level_adj = sensor_water_level - smoothed_baseline_depth`,
`road_water_level_adj = road_water_level - smoothed_baseline_depth`, and
hence the round trip
`sensor_water_level_adj + smoothed_baseline_depth - sensor_elevation = water_depth`;
on the concrete instance with sensor elevation 10, road elevation 9.5,
depth 0.3 and baseline 0.1 the outputs are 10.3, 0.8, 10.2 and 0.7. -/
theorem correct_drift_round_trip :
    (∀ (x : List DRow) (s e : ℚ) (o : DOut), o ∈ correct_drift x s e →
      o.sensor_water_level = o.sensor_elevation + o.sensor_water_depth ∧
      o.road_water_level = o.sensor_water_level - o.road_elevation ∧
      o.sensor_water_level_adj = o.sensor_water_level - o.smoothed_min_water_depth ∧
      o.road_water_level_adj = o.road_water_level - o.smoothed_min_water_depth ∧
      o.sensor_water_level_adj + o.smoothed_min_water_depth - o.sensor_elevation
        = o.sensor_water_depth) ∧
    correct_drift [⟨"Beaufort", "S1", 7200, 3/10, 10, 19/2, 1/10⟩] 0 10080 =
      [⟨"Beaufort", "S1", 7200, 3/10, 10, 19/2, 1/10, 103/10, 4/5, 51/5, 7/10⟩] := by
  constructor
  · intro x s e o ho
    simp only [correct_drift, List.mem_filter, List.mem_map] at ho
    obtain ⟨⟨r, hr, rfl⟩, hw⟩ := ho
    refine ⟨rfl, rfl, rfl, rfl, ?_⟩
    simp only
    ring
  · norm_num [correct_drift]

/-- Witness for C6: the concrete output row is in the output and the
round-trip identity evaluates on it. -/
theorem correct_drift_round_trip_witness :
    (⟨"Beaufort", "S1", 7200, 3/10, 10, 19/2, 1/10, 103/10, 4/5, 51/5, 7/10⟩ : DOut) ∈
        correct_drift [⟨"Beaufort", "S1", 7200, 3/10, 10, 19/2, 1/10⟩] 0 10080 ∧
    (⟨"Beaufort", "S1", 7200, 3/10, 10, 19/2, 1/10, 103/10, 4/5, 51/5, 7/10⟩ : DOut).sensor_water_level_adj
        + (⟨"Beaufort", "S1", 7200, 3/10, 10, 19/2, 1/10, 103/10, 4/5, 51/5, 7/10⟩ : DOut).smoothed_min_water_depth
        - (⟨"Beaufort", "S1", 7200, 3/10, 10, 19/2, 1/10, 103/10, 4/5, 51/5, 7/10⟩ : DOut).sensor_elevation
      = (⟨"Beaufort", "S1", 7200, 3/10, 10, 19/2, 1/10, 103/10, 4/5, 51/5, 7/10⟩ : DOut).sensor_water_depth :=
  ⟨by norm_num [correct_drift],
    (correct_drift_round_trip.1 [⟨"Beaufort", "S1", 7200, 3/10, 10, 19/2, 1/10⟩] 0 10080 _
      (by norm_num [correct_drift])).2.2.2.2⟩

/-- Forward fill is the identity on a column without NaN. -/
theorem ffill_map_some (c : Option ℚ) : ∀ l : List ℚ, ffill c (l.map some) = l.map some
  | [] => rfl
  | v :: t => by simp [ffill, ffill_map_some (some v) t]

/-- Backward fill is the identity on a column without NaN. -/
theorem bfill_map_some (l : List ℚ) : bfill (l.map some) = l.map some := by
  unfold bfill
  rw [← List.map_reverse, ffill_map_some, List.map_reverse, List.reverse_reverse]

/-- For a segment whose frame-index labels coincide with its positions
(labels `0..m-1`), the line-157 alignment hands every row its own
rolling-minimum value. -/
theorem aligned_rolling_min_range (seg : List SRow) :
    aligned_rolling_min seg (List.range seg.length) = (rolling_min_list seg).map some := by
  unfold aligned_rolling_min rolling_min_list
  rw [List.map_map]
  exact List.map_congr_left (fun i hi => by simp [List.mem_range.1 hi])

/-- Evaluation of the changepoint filter on the two-point witness
segment: both candidates fall outside the percentile band. -/
theorem change_pts_two_point_empty : change_pts [⟨0, 1⟩, ⟨10, 0⟩] = [] := by
  norm_num [change_pts, rolling_min_list, rolling_min_at, change_candidate,
    np_quantile, sortLe, insertLe, List.range_succ, min_def]

/-- C5 counterexample: the claim fails for a segment whose frame-index
labels do not start at 0.  The two-point segment below has no surviving
changepoints; when its rows carry labels 1 and 2 (as the rows of any
non-first survey epoch do), line 157's index-aligned assignment gives
the first row the rolling minimum of POSITION 1 and the second row NaN,
which the pad fill then copies — the result `[some 0, some 0]` is not
the segment's own rolling-minimum column `[some 1, some 0]`. -/
theorem smooth_baseline_alignment_mismatch :
    change_pts [⟨0, 1⟩, ⟨10, 0⟩] = [] ∧
    smooth_baseline_segment (fun _ _ => []) [1, 2] [⟨0, 1⟩, ⟨10, 0⟩] = [some 0, some 0] ∧
    (rolling_min_list [⟨0, 1⟩, ⟨10, 0⟩]).map some = [some 1, some 0] ∧
    smooth_baseline_segment (fun _ _ => []) [1, 2] [⟨0, 1⟩, ⟨10, 0⟩]
      ≠ (rolling_min_list [⟨0, 1⟩, ⟨10, 0⟩]).map some := by
  have h2 : smooth_baseline_segment (fun _ _ => []) [1, 2] [⟨0, 1⟩, ⟨10, 0⟩]
      = [some 0, some 0] := by
    norm_num [smooth_baseline_segment, change_pts_two_point_empty, aligned_rolling_min,
      rolling_min_at, min_def, ffill, bfill]
  have h3 : (rolling_min_list [⟨0, 1⟩, ⟨10, 0⟩]).map some = [some 1, some 0] := by
    norm_num [rolling_min_list, rolling_min_at, List.range_succ, min_def]
  refine ⟨change_pts_two_point_empty, h2, h3, ?_⟩
  rw [h2, h3]
  norm_num

/-- C5 amended: when the set of surviving changepoints of a segment is
empty and the segment's frame-index labels coincide with its positions
(labels `0..m-1`, as for the sensor's first survey-epoch segment), the
smoothed baseline equals the raw 2-day rolling minimum at every
timestamp of the segment (for any behaviour of the external LOWESS
branch, which is not reached). -/
theorem smooth_baseline_no_changepoints
    (lowess_branch : List SRow → List (ℚ × ℚ) → List (Option ℚ)) (seg : List SRow)
    (h : change_pts seg = []) :
    smooth_baseline_segment lowess_branch (List.range seg.length) seg
      = (rolling_min_list seg).map some := by
  simp [smooth_baseline_segment, h, aligned_rolling_min_range, ffill_map_some, bfill_map_some]

/-- Witness for C5: a two-point segment whose two candidate changepoints
both fall outside the 1st-75th percentile band, so none survive, with
labels 0 and 1. -/
theorem smooth_baseline_no_changepoints_witness :
    change_pts [⟨0, 1⟩, ⟨10, 0⟩] = [] ∧
    smooth_baseline_segment (fun _ _ => [])
        (List.range ([⟨0, 1⟩, ⟨10, 0⟩] : List SRow).length) [⟨0, 1⟩, ⟨10, 0⟩]
      = (rolling_min_list [⟨0, 1⟩, ⟨10, 0⟩]).map some :=
  ⟨change_pts_two_point_empty, smooth_baseline_no_changepoints _ _ change_pts_two_point_empty⟩

/-- C9 counterexample: the QualityFilter is not free of side effects on
its input.  Calling `qa_qc_flag` on a one-row frame without a
`qa_qc_flag` column leaves the caller's frame changed: the column has
been added in place (the function assigns to `x` and returns `x`
itself). -/
theorem qa_qc_flag_mutates_input :
    (qa_qc_flag (1/10) [⟨"P", "S", 0, 0, none⟩]).2 ≠ [⟨"P", "S", 0, 0, none⟩] := by
  simp [qa_qc_flag, annotate_qa]

/-- C9 amended: `qa_qc_flag` returns the annotated frame and mutates the
caller's input frame into that same annotated frame (the returned object
is the input object); apart from the added `qa_qc_flag` column the rows
are unchanged. -/
theorem qa_qc_flag_inplace (th : ℚ) (x : List QRow) :
    (qa_qc_flag th x).2 = (qa_qc_flag th x).1 ∧
    (qa_qc_flag th x).2.map eraseQa = x.map eraseQa :=
  ⟨rfl, annotate_qa_map_eraseQa th x x 0⟩

/-- C7: with readings grouped by sensor and sorted by timestamp
(strictly, so that durations are nonzero), a row is flagged exactly when
the absolute rate of change against the previous reading of the same
sensor exceeds the threshold; the first reading of each sensor group is
never flagged; and on the concrete scenario (depth 0.20 then 0.45 one
minute later, threshold 0.1) exactly the second reading is flagged. -/
theorem qa_qc_flag_rate_threshold :
    (∀ (th : ℚ) (x : List QRow),
        x.Pairwise (fun a b => a.sensor_ID = b.sensor_ID → a.date < b.date) →
        ∀ i, i < x.length →
        (((qa_qc_flag th x).1.getD i default).qa_qc_flag = some true ↔
          ∃ j, prev_same_sensor x i = some j ∧
            |((x.getD i default).sensor_water_depth - (x.getD j default).sensor_water_depth)
                / ((x.getD i default).date - (x.getD j default).date)| > th)) ∧
    (∀ (th : ℚ) (x : List QRow) (i : Nat), i < x.length → prev_same_sensor x i = none →
        ((qa_qc_flag th x).1.getD i default).qa_qc_flag = some false) ∧
    ((qa_qc_flag (1/10) [⟨"P", "S1", 0, 2/10, none⟩, ⟨"P", "S1", 1, 45/100, none⟩]).1.map
        (fun r => r.qa_qc_flag) = [some false, some true]) := by
  refine ⟨?_, ?_, ?_⟩
  · intro th x hsort i hi
    have h := annotate_qa_getD th x x 0 i hi
    simp only [qa_qc_flag]
    rw [h]
    simp only [Nat.zero_add, Option.some.injEq]
    cases hp : prev_same_sensor x i with
    | none => simp [qa_flag_at, hp]
    | some j => simp [qa_flag_at, hp]
  · intro th x i hi hp
    have h := annotate_qa_getD th x x 0 i hi
    simp only [qa_qc_flag]
    rw [h]
    simp [qa_flag_at, hp]
  · norm_num [qa_qc_flag, annotate_qa, qa_flag_at, prev_same_sensor, List.range_succ,
      abs_of_nonneg]

/-- Witness for C7: the biconditional instantiated on the concrete
scenario at the second reading, with both hypotheses discharged. -/
theorem qa_qc_flag_rate_threshold_witness :
    ([⟨"P", "S1", 0, 2/10, none⟩, ⟨"P", "S1", 1, 45/100, none⟩] : List QRow).Pairwise
        (fun a b => a.sensor_ID = b.sensor_ID → a.date < b.date) ∧
    1 < ([⟨"P", "S1", 0, 2/10, none⟩, ⟨"P", "S1", 1, 45/100, none⟩] : List QRow).length ∧
    (((qa_qc_flag (1/10)
          [⟨"P", "S1", 0, 2/10, none⟩, ⟨"P", "S1", 1, 45/100, none⟩]).1.getD 1
            default).qa_qc_flag = some true ↔
      ∃ j, prev_same_sensor
            ([⟨"P", "S1", 0, 2/10, none⟩, ⟨"P", "S1", 1, 45/100, none⟩] : List QRow) 1
          = some j ∧
        |((([⟨"P", "S1", 0, 2/10, none⟩, ⟨"P", "S1", 1, 45/100, none⟩] : List QRow).getD 1
              default).sensor_water_depth -
            (([⟨"P", "S1", 0, 2/10, none⟩, ⟨"P", "S1", 1, 45/100, none⟩] : List QRow).getD j
              default).sensor_water_depth) /
          ((([⟨"P", "S1", 0, 2/10, none⟩, ⟨"P", "S1", 1, 45/100, none⟩] : List QRow).getD 1
              default).date -
            (([⟨"P", "S1", 0, 2/10, none⟩, ⟨"P", "S1", 1, 45/100, none⟩] : List QRow).getD j
              default).date)| > 1/10) :=
  ⟨by norm_num [List.pairwise_cons], by norm_num,
    qa_qc_flag_rate_threshold.1 (1/10) _ (by norm_num [List.pairwise_cons]) 1 (by norm_num)⟩

/-- C1 counterexample: `detect_flooding` compares
`sensor_water_level_adj`, not `road_water_level_adj`, against the alert
threshold (source line 219).  For a stale reading with
`sensor_water_level_adj = 1`, `road_water_level_adj = 1/2` and
`alert_threshold = 4/5` the emitted row has `is_flooding = true`
although `road_water_level_adj < alert_threshold`, refuting the claimed
equivalence. -/
theorem detect_flooding_threshold_mismatch :
    detect_flooding [⟨"P", "S", 0, 1, 1/2, 4/5⟩] 100 =
      [⟨"P", "S", 0, 100, true, false⟩] ∧
    ¬((⟨"P", "S", 0, 1, 1/2, 4/5⟩ : CReading).road_water_level_adj ≥
        (⟨"P", "S", 0, 1, 1/2, 4/5⟩ : CReading).alert_threshold) ∧
    (100 : ℚ) - (⟨"P", "S", 0, 1, 1/2, 4/5⟩ : CReading).date > cutoff_time := by
  refine ⟨?_, by norm_num, by norm_num [cutoff_time]⟩
  norm_num [detect_flooding, detect_group, sortLe, insertLe, above_alert_wl, cutoff_time,
    List.dedup, List.filterMap_cons, List.filter_cons]

/-- C1 amended: in every flood-status candidate the sensor is
above-threshold exactly when `sensor_water_level_adj ≥ alert_threshold`
(not `road_water_level_adj`), and `is_flooding` holds exactly when the
time since the latest measurement exceeds 40 minutes and the sensor is
above-threshold. -/
theorem detect_group_flooding_policy (g : List CReading) (current_time : ℚ) (row : FSRow)
    (h : detect_group g current_time = some row) :
    ∃ r, (sortLe (fun a b => decide (a.date ≤ b.date)) g).getLast? = some r ∧
      (above_alert_wl r = true ↔ r.sensor_water_level_adj ≥ r.alert_threshold) ∧
      (row.is_flooding = true ↔
        current_time - r.date > cutoff_time ∧ above_alert_wl r = true) := by
  rw [detect_group_eq] at h
  cases hl : (sortLe (fun a b => decide (a.date ≤ b.date)) g).getLast? with
  | none => rw [hl] at h; exact absurd h (by simp)
  | some r =>
    rw [hl] at h
    simp only [Option.map_some', Option.some.injEq] at h
    refine ⟨r, rfl, by simp [above_alert_wl], ?_⟩
    rw [← h]
    simp [Bool.and_eq_true, decide_eq_true_eq]

/-- Witness for C1: the amended policy instantiated on a concrete
one-reading group. -/
theorem detect_group_flooding_policy_witness :
    detect_group [⟨"P", "S", 0, 1, 1/2, 4/5⟩] 100 = some ⟨"P", "S", 0, 100, true, false⟩ ∧
    ∃ r, (sortLe (fun a b => decide (a.date ≤ b.date))
            [(⟨"P", "S", 0, 1, 1/2, 4/5⟩ : CReading)]).getLast? = some r ∧
      (above_alert_wl r = true ↔ r.sensor_water_level_adj ≥ r.alert_threshold) ∧
      ((⟨"P", "S", 0, 100, true, false⟩ : FSRow).is_flooding = true ↔
        (100 : ℚ) - r.date > cutoff_time ∧ above_alert_wl r = true) :=
  ⟨by norm_num [detect_group, sortLe, insertLe, above_alert_wl, cutoff_time],
    detect_group_flooding_policy _ 100 _
      (by norm_num [detect_group, sortLe, insertLe, above_alert_wl, cutoff_time])⟩

/-- C10: the flood-status row emitted for a sensor group is a function
only of the group's chronologically latest reading and of the evaluation
time: two groups with the same latest reading produce the same row, so
changing or removing the second- and third-most-recent readings (which
only feed the discarded `sample_interval`/`min_interval` columns) never
changes any output field. -/
theorem detect_group_latest_only (g h : List CReading) (current_time : ℚ)
    (hlast : (sortLe (fun a b => decide (a.date ≤ b.date)) g).getLast?
        = (sortLe (fun a b => decide (a.date ≤ b.date)) h).getLast?) :
    detect_group g current_time = detect_group h current_time := by
  rw [detect_group_eq, detect_group_eq, hlast]

/-- Witness for C10: a three-reading group and the one-reading group
obtained by removing the two older readings produce the same row. -/
theorem detect_group_latest_only_witness :
    (sortLe (fun a b => decide (a.date ≤ b.date))
        [(⟨"P", "S", 0, 1, 1/2, 4/5⟩ : CReading), ⟨"P", "S", 5, 2, 3/2, 4/5⟩,
          ⟨"P", "S", 9, 3, 5/2, 4/5⟩]).getLast?
      = (sortLe (fun a b => decide (a.date ≤ b.date))
          [(⟨"P", "S", 9, 3, 5/2, 4/5⟩ : CReading)]).getLast? ∧
    detect_group [⟨"P", "S", 0, 1, 1/2, 4/5⟩, ⟨"P", "S", 5, 2, 3/2, 4/5⟩,
        ⟨"P", "S", 9, 3, 5/2, 4/5⟩] 100
      = detect_group [⟨"P", "S", 9, 3, 5/2, 4/5⟩] 100 :=
  ⟨by norm_num [sortLe, insertLe],
    detect_group_latest_only _ _ 100 (by norm_num [sortLe, insertLe])⟩

/-- C4 counterexample: with surveys at times 0 and 10 and evaluation
time 20, a reading exactly at time 10 is assigned epoch 0 by the code
(`pd.cut` bins are right-closed, left-open), while the claim's "greatest
surveyed_at ≤ timestamp" rule assigns epoch 10. -/
theorem survey_epoch_boundary_mismatch :
    survey_epoch [0, 10] 20 10 = some 0 ∧ survey_epoch_spec [0, 10] 10 = some 10 := by
  constructor
  · norm_num [survey_epoch, cutEpoch]
  · norm_num [survey_epoch_spec]

/-- Characterization of the right-closed cut: for strictly sorted survey
dates that precede the evaluation time, a reading at `t` gets label `e`
exactly when `e` is the greatest survey date strictly below `t` and `t`
does not exceed the evaluation time. -/
theorem cutEpoch_iff (now t : ℚ) :
    ∀ (ds : List ℚ), ds.Pairwise (fun a b => a < b) → (∀ d ∈ ds, d < now) →
      ∀ e, (cutEpoch ds now t = some e ↔
        e ∈ ds ∧ e < t ∧ t ≤ now ∧ ∀ d ∈ ds, d < t → d ≤ e)
  | [], _, _, e => by simp [cutEpoch]
  | [d], hp, hn, e => by
    simp only [cutEpoch, List.mem_singleton]
    by_cases h : d < t ∧ t ≤ now
    · rw [if_pos h]
      simp only [Option.some.injEq]
      constructor
      · intro hde
        subst hde
        exact ⟨rfl, h.1, h.2, fun d2 hd2 _ => le_of_eq hd2⟩
      · rintro ⟨rfl, _⟩
        rfl
    · rw [if_neg h]
      simp only [false_iff, reduceCtorEq]
      rintro ⟨rfl, hlt, hle, _⟩
      exact h ⟨hlt, hle⟩
  | d0 :: d1 :: rest, hp, hn, e => by
    obtain ⟨h0, hp1⟩ := List.pairwise_cons.1 hp
    have hn1 : ∀ d ∈ d1 :: rest, d < now := fun d hd => hn d (List.mem_cons_of_mem _ hd)
    have h01 : d0 < d1 := h0 d1 (List.mem_cons_self _ _)
    simp only [cutEpoch]
    by_cases h : d0 < t ∧ t ≤ d1
    · rw [if_pos h]
      simp only [Option.some.injEq]
      constructor
      · rintro rfl
        refine ⟨List.mem_cons_self _ _, h.1,
          le_trans h.2 (le_of_lt (hn d1 (List.mem_cons_of_mem _ (List.mem_cons_self _ _)))),
          ?_⟩
        intro d hd hdt
        rcases List.mem_cons.1 hd with rfl | hd2
        · exact le_refl d
        rcases List.mem_cons.1 hd2 with rfl | hd3
        · exact absurd (lt_of_lt_of_le hdt h.2) (lt_irrefl d)
        · have hd1d : d1 < d := (List.pairwise_cons.1 hp1).1 d hd3
          exact absurd (lt_trans hd1d (lt_of_lt_of_le hdt h.2)) (lt_irrefl d1)
      · rintro ⟨he, hlt, hle, hall⟩
        rcases List.mem_cons.1 he with rfl | he2
        · rfl
        rcases List.mem_cons.1 he2 with rfl | he3
        · exact absurd (lt_of_lt_of_le hlt h.2) (lt_irrefl e)
        · exact absurd (lt_of_lt_of_le (lt_trans ((List.pairwise_cons.1 hp1).1 e he3) hlt) h.2)
            (lt_irrefl d1)
    · rw [if_neg h]
      rw [cutEpoch_iff now t (d1 :: rest) hp1 hn1 e]
      constructor
      · rintro ⟨he, hlt, hle, hall⟩
        refine ⟨List.mem_cons_of_mem _ he, hlt, hle, ?_⟩
        intro d hd hdt
        rcases List.mem_cons.1 hd with rfl | hd2
        · have hd1e : d1 ≤ e := by
            by_cases hd1t : d1 < t
            · exact hall d1 (List.mem_cons_self _ _) hd1t
            · exact absurd ⟨hdt, le_of_not_lt hd1t⟩ h
          exact le_of_lt (lt_of_lt_of_le h01 hd1e)
        · exact hall d hd2 hdt
      · rintro ⟨he, hlt, hle, hall⟩
        rcases List.mem_cons.1 he with rfl | he2
        · exfalso
          by_cases hd1t : d1 < t
          · exact absurd (lt_of_lt_of_le h01 (hall d1
              (List.mem_cons_of_mem _ (List.mem_cons_self _ _)) hd1t)) (lt_irrefl e)
          · exact h ⟨hlt, le_of_not_lt hd1t⟩
        · exact ⟨he2, hlt, hle, fun d hd hdt => hall d (List.mem_cons_of_mem _ hd) hdt⟩

/-- C4 amended: with several surveys (strictly sorted, all before the
evaluation time), the timeline is partitioned into left-open, right-
closed intervals (surveyed_at[k], surveyed_at[k+1]] plus a final
interval ending at the evaluation time, so that a matched reading's
survey_epoch equals the greatest surveyed_at strictly below its
timestamp, and every reading with timestamp at or before the first
surveyed_at (or after the evaluation time) is unmatched. -/
theorem survey_epoch_partition (ds : List ℚ) (now t e : ℚ)
    (hsort : ds.Pairwise (fun a b => a < b)) (hlen : 2 ≤ ds.length)
    (hnow : ∀ d ∈ ds, d < now) :
    (survey_epoch ds now t = some e ↔
      e ∈ ds ∧ e < t ∧ t ≤ now ∧ ∀ d ∈ ds, d < t → d ≤ e) ∧
    (t ≤ ds.headD 0 → survey_epoch ds now t = none) := by
  match ds, hsort, hnow with
  | d0 :: d1 :: rest, hsort, hnow =>
    have hse : survey_epoch (d0 :: d1 :: rest) now t = cutEpoch (d0 :: d1 :: rest) now t := rfl
    constructor
    · rw [hse]
      exact cutEpoch_iff now t (d0 :: d1 :: rest) hsort hnow e
    · intro ht
      rw [hse]
      cases hc : cutEpoch (d0 :: d1 :: rest) now t with
      | none => rfl
      | some e2 =>
        exfalso
        have h2 := (cutEpoch_iff now t (d0 :: d1 :: rest) hsort hnow e2).1 hc
        obtain ⟨he, hlt, hle, hall⟩ := h2
        simp only [List.headD_cons] at ht
        rcases List.mem_cons.1 he with rfl | he2
        · exact absurd (lt_of_lt_of_le hlt ht) (lt_irrefl e2)
        · have h0 := (List.pairwise_cons.1 hsort).1 e2 he2
          exact absurd (lt_trans h0 (lt_of_lt_of_le hlt ht)) (lt_irrefl d0)

/-- Witness for C4: the partition rule instantiated on surveys at times
0 and 10, evaluation time 20 and a reading at time 7, whose epoch is the
survey at time 0. -/
theorem survey_epoch_partition_witness :
    ([0, 10] : List ℚ).Pairwise (fun a b => a < b) ∧
    2 ≤ ([0, 10] : List ℚ).length ∧
    (∀ d ∈ ([0, 10] : List ℚ), d < 20) ∧
    ((survey_epoch [0, 10] 20 7 = some 0 ↔
        (0 : ℚ) ∈ ([0, 10] : List ℚ) ∧ (0 : ℚ) < 7 ∧ (7 : ℚ) ≤ 20 ∧
          ∀ d ∈ ([0, 10] : List ℚ), d < 7 → d ≤ 0) ∧
      ((7 : ℚ) ≤ ([0, 10] : List ℚ).headD 0 → survey_epoch [0, 10] 20 7 = none)) :=
  ⟨by norm_num [List.pairwise_cons], by norm_num, by norm_num,
    survey_epoch_partition [0, 10] 20 7 0 (by norm_num [List.pairwise_cons]) (by norm_num)
      (by norm_num)⟩

/-- C2: `alert_flooding` contradicts the claim.  The `flood_status`
table holds one prior row for (P, S) with `alert_sent = false` (so the
table read succeeds and no alert was previously sent), one candidate is
flooding, and the external notify call fails (last argument `false`):
`send_alert` is invoked (the calls list is `["P"]`) but its outcome is
never consulted, the upserted row carries `alert_sent = true`, and the
persisted state is identical for a failed and for a successful send, so
the next run will not retry the notification. -/
theorem alert_flooding_marks_sent_despite_notify_failure :
    alert_flooding [⟨"P", "S", 0, 1, 1/2, 1/2⟩] [⟨"P", "S", 0, 50, false, false⟩]
        100 true false
      = Except.ok ([⟨"P", "S", 0, 100, true, true⟩], ["P"]) ∧
    alert_flooding [⟨"P", "S", 0, 1, 1/2, 1/2⟩] [⟨"P", "S", 0, 50, false, false⟩]
        100 true false
      = alert_flooding [⟨"P", "S", 0, 1, 1/2, 1/2⟩] [⟨"P", "S", 0, 50, false, false⟩]
        100 true true := by
  norm_num [alert_flooding, get_flood_status, fs_order, detect_flooding, detect_group,
    sortLe, insertLe, above_alert_wl, cutoff_time, List.dedup, List.filterMap_cons,
    List.filter_cons, process_place, upsert_rows]

/-- C8: when the `sensor_surveys` read returns an empty result,
`get_surveys` warns and returns `None` (bare `return`), and the first
per-sensor iteration of `calc_baseline_wl` then dereferences `None` and
the run aborts with an `AttributeError` instead of continuing with an
empty set. -/
theorem empty_surveys_read_aborts_run :
    get_surveys [] = none ∧
    calc_baseline_wl (fun _ _ => []) 0 [⟨"P", "S", 0, 1, none⟩] (get_surveys [])
      = Except.error "AttributeError: NoneType object has no attribute query" :=
  ⟨rfl, rfl⟩

/-- A row being written is in the result of the upsert. -/
theorem upsert_mem_new {table rows : List FSRow} {r : FSRow} (h : r ∈ rows) :
    r ∈ upsert_rows table rows := by
  unfold upsert_rows
  exact List.mem_append_left _ h

/-- A stored row whose place conflicts with no written row survives the
upsert. -/
theorem upsert_mem_old {table rows : List FSRow} {r : FSRow} (hr : r ∈ table)
    (h : ∀ s ∈ rows, s.place ≠ r.place) : r ∈ upsert_rows table rows := by
  unfold upsert_rows
  refine List.mem_append_right _ (List.mem_filter.2 ⟨hr, ?_⟩)
  simp only [Bool.not_eq_eq_eq_not, Bool.not_true, List.any_eq_false]
  intro s hs
  simp only [Bool.and_eq_true, beq_iff_eq, not_and]
  intro hsp
  exact absurd hsp (h s hs)

/-- Every row written for a place carries that place. -/
theorem process_place_place (cands flood_status_df : List FSRow) (p : String) :
    ∀ q ∈ (process_place cands flood_status_df p).1, q.place = p := by
  intro q hq
  simp only [process_place] at hq
  split at hq
  · split at hq <;>
    · simp only [List.mem_map, List.mem_filter] at hq
      obtain ⟨r, ⟨⟨hr0, hr1⟩, hr2⟩, rfl⟩ := hq
      exact (beq_iff_eq).1 hr1
  · exact (beq_iff_eq).1 (List.mem_filter.1 hq).2

/-- If some candidate of the place is flooding, one of the rows written
for the place carries `alert_sent = true` (both flooding branches set
the flag before writing). -/
theorem process_place_sent (cands flood_status_df : List FSRow) (p : String)
    (h : ∃ c ∈ cands, c.place = p ∧ c.is_flooding = true) :
    ∃ q ∈ (process_place cands flood_status_df p).1,
      q.place = p ∧ q.alert_sent = true := by
  obtain ⟨c, hc, hcp, hcf⟩ := h
  have hmem : c ∈ cands.filter (fun r => r.place == p) :=
    List.mem_filter.2 ⟨hc, by simp [hcp]⟩
  have hany : (cands.filter (fun r => r.place == p)).any (fun r => r.is_flooding) = true :=
    List.any_eq_true.2 ⟨c, hmem, hcf⟩
  simp only [process_place]
  rw [if_pos hany]
  have hq : ({ c with alert_sent := true } : FSRow) ∈
      ((cands.filter (fun r => r.place == p)).filter (fun r => r.is_flooding)).map
        (fun r => { r with alert_sent := true }) :=
    List.mem_map_of_mem _ (List.mem_filter.2 ⟨hmem, hcf⟩)
  split
  · exact ⟨{ c with alert_sent := true }, hq, hcp, rfl⟩
  · exact ⟨{ c with alert_sent := true }, hq, hcp, rfl⟩

/-- The notify call for a place happens exactly when some candidate of
the place is flooding and the pre-run table has no `alert_sent = true`
row for the place. -/
theorem process_place_notify_iff (cands flood_status_df : List FSRow) (p : String) :
    (process_place cands flood_status_df p).2 = true ↔
      ((cands.filter (fun r => r.place == p)).any (fun r => r.is_flooding) = true ∧
        (flood_status_df.filter (fun r => r.place == p)).any (fun r => r.alert_sent)
          = false) := by
  unfold process_place
  by_cases hf : (cands.filter (fun r => r.place == p)).any (fun r => r.is_flooding) = true
  · rw [if_pos hf]
    by_cases ha : (flood_status_df.filter (fun r => r.place == p)).any (fun r => r.alert_sent)
        = true
    · rw [if_pos ha]
      simp [hf, ha]
    · rw [if_neg ha]
      simp only [Bool.not_eq_true] at ha
      simp [hf, ha]
  · rw [if_neg hf]
    simp only [Bool.not_eq_true] at hf
    simp [hf]

/-- A row already in the accumulator survives the whole upsert fold as
long as its place is processed by none of the remaining iterations. -/
theorem mem_foldl_upsert_of_mem (f : String → List FSRow)
    (hf : ∀ q s, s ∈ f q → s.place = q) (p : String) :
    ∀ (places : List String) (t0 : List FSRow) (r : FSRow),
      r ∈ t0 → r.place = p → p ∉ places →
      r ∈ places.foldl (fun t q => upsert_rows t (f q)) t0
  | [], t0, r, hr, _, _ => hr
  | q :: rest, t0, r, hr, hp, hnp => by
    simp only [List.foldl_cons]
    have hqp : q ≠ p := fun h => hnp (h ▸ List.mem_cons_self _ _)
    refine mem_foldl_upsert_of_mem f hf p rest _ r ?_ hp
      (fun h => hnp (List.mem_cons_of_mem _ h))
    refine upsert_mem_old hr ?_
    intro s hs
    rw [hf q s hs, hp]
    exact hqp

/-- If the place is processed by some iteration and its written rows
contain an `alert_sent = true` row, the folded table contains such a
row. -/
theorem mem_foldl_upsert (f : String → List FSRow)
    (hf : ∀ q s, s ∈ f q → s.place = q) (p : String) :
    ∀ (places : List String) (t0 : List FSRow),
      places.Nodup → p ∈ places →
      (∃ s ∈ f p, s.place = p ∧ s.alert_sent = true) →
      ∃ r ∈ places.foldl (fun t q => upsert_rows t (f q)) t0,
        r.place = p ∧ r.alert_sent = true
  | [], _, _, hp, _ => absurd hp (by simp)
  | q :: rest, t0, hnd, hp, hs => by
    simp only [List.foldl_cons]
    rcases List.mem_cons.1 hp with rfl | hp2
    · obtain ⟨s, hsmem, hsp, hssent⟩ := hs
      have hnotin : p ∉ rest := (List.nodup_cons.1 hnd).1
      exact ⟨s, mem_foldl_upsert_of_mem f hf p rest _ s (upsert_mem_new hsmem) hsp hnotin,
        hsp, hssent⟩
    · exact mem_foldl_upsert f hf p rest _ (List.nodup_cons.1 hnd).2 hp2 hs

/-- Occurrence count of an element in a filtered duplicate-free list. -/
theorem count_filter_nodup :
    ∀ (l : List String) (f : String → Bool) (p : String), l.Nodup →
      (l.filter f).count p = if p ∈ l ∧ f p = true then 1 else 0
  | [], f, p, _ => by simp
  | a :: t, f, p, hnd => by
    have ih := count_filter_nodup t f p (List.nodup_cons.1 hnd).2
    have hna : a ∉ t := (List.nodup_cons.1 hnd).1
    by_cases hfa : f a = true
    · rw [List.filter_cons_of_pos hfa]
      by_cases hap : p = a
      · subst hap
        rw [List.count_cons_self]
        rw [ih]
        rw [if_neg (fun hc => hna hc.1), if_pos ⟨List.mem_cons_self _ _, hfa⟩]
      · rw [List.count_cons_of_ne hap, ih]
        by_cases hpt : p ∈ t ∧ f p = true
        · rw [if_pos hpt, if_pos ⟨List.mem_cons_of_mem _ hpt.1, hpt.2⟩]
        · rw [if_neg hpt, if_neg (fun hc => hpt ⟨(List.mem_cons.1 hc.1).resolve_left hap, hc.2⟩)]
    · rw [List.filter_cons_of_neg hfa, ih]
      by_cases hap : p = a
      · subst hap
        rw [if_neg (fun hc => hna hc.1), if_neg (fun hc => hfa hc.2)]
      · by_cases hpt : p ∈ t ∧ f p = true
        · rw [if_pos hpt, if_pos ⟨List.mem_cons_of_mem _ hpt.1, hpt.2⟩]
        · rw [if_neg hpt, if_neg (fun hc => hpt ⟨(List.mem_cons.1 hc.1).resolve_left hap, hc.2⟩)]

/-- Membership in an ordered insertion. -/
theorem mem_insertLe {α : Type} (le : α → α → Bool) (a b : α) :
    ∀ l : List α, a ∈ insertLe le b l ↔ a = b ∨ a ∈ l
  | [] => by simp [insertLe]
  | c :: t => by
    simp only [insertLe]
    split
    · simp [List.mem_cons]
    · simp only [List.mem_cons, mem_insertLe le a b t]
      tauto

/-- Sorting does not change membership. -/
theorem mem_sortLe {α : Type} (le : α → α → Bool) :
    ∀ (l : List α) (a : α), a ∈ sortLe le l ↔ a ∈ l
  | [], a => Iff.rfl
  | b :: t, a => by
    simp only [sortLe, mem_insertLe, List.mem_cons, mem_sortLe le t]

/-- Ordered insertion adds one element to the length. -/
theorem length_insertLe {α : Type} (le : α → α → Bool) (a : α) :
    ∀ l : List α, (insertLe le a l).length = l.length + 1
  | [] => rfl
  | b :: t => by
    simp only [insertLe]
    split
    · rfl
    · simp [length_insertLe le a t]

/-- Sorting does not change the length. -/
theorem length_sortLe {α : Type} (le : α → α → Bool) :
    ∀ l : List α, (sortLe le l).length = l.length
  | [] => rfl
  | a :: t => by simp [sortLe, length_insertLe, length_sortLe le t]

/-- One `alert_flooding` run on a non-empty pre-run table with
successful persistence: the table read succeeds (sorted snapshot), the
loop runs, and the run returns its table fold and its notify-call
list. -/
theorem alert_flooding_ok (x : List CReading) (S : List FSRow) (n : ℚ) (b : Bool)
    (hS : S ≠ []) :
    alert_flooding x S n true b = Except.ok
      ((((detect_flooding x n).map (fun r => r.place)).dedup).foldl
          (fun t q => upsert_rows t
            (process_place (detect_flooding x n) (sortLe fs_order S) q).1) S,
        (((detect_flooding x n).map (fun r => r.place)).dedup).filter
          (fun q => (process_place (detect_flooding x n) (sortLe fs_order S) q).2)) := by
  have hlen : ¬ (sortLe fs_order S).length = 0 := by
    rw [length_sortLe]
    exact fun h => hS (List.length_eq_zero.1 h)
  simp [alert_flooding, get_flood_status, hlen]

/-- C3: for a place that is flooding in two consecutive runs (no
intervening no-flood run), whose pre-episode persisted state is
non-empty (so the `flood_status` read succeeds) and has no
`alert_sent = true` row, with successful persistence both runs complete
and the notify call for the place is invoked exactly once across the
two runs, whatever each send's outcome `b1`, `b2`. -/
theorem alert_at_most_once_per_episode
    (x1 x2 : List CReading) (S0 : List FSRow) (n1 n2 : ℚ) (b1 b2 : Bool) (p : String)
    (hS0 : S0 ≠ [])
    (h0 : ∀ r ∈ S0, r.place = p → r.alert_sent = false)
    (h1 : ∃ r ∈ detect_flooding x1 n1, r.place = p ∧ r.is_flooding = true)
    (h2 : ∃ r ∈ detect_flooding x2 n2, r.place = p ∧ r.is_flooding = true) :
    ∃ S1 calls1 S2 calls2,
      alert_flooding x1 S0 n1 true b1 = Except.ok (S1, calls1) ∧
      alert_flooding x2 S1 n2 true b2 = Except.ok (S2, calls2) ∧
      calls1.count p + calls2.count p = 1 := by
  obtain ⟨r1, hr1mem, hr1p, hr1f⟩ := h1
  obtain ⟨r2, hr2mem, hr2p, hr2f⟩ := h2
  set cands1 := detect_flooding x1 n1 with hcands1
  set cands2 := detect_flooding x2 n2 with hcands2
  set places1 := ((cands1.map (fun r => r.place)).dedup) with hplaces1
  set places2 := ((cands2.map (fun r => r.place)).dedup) with hplaces2
  set T1 := places1.foldl
    (fun t q => upsert_rows t (process_place cands1 (sortLe fs_order S0) q).1) S0 with hT1
  have hpl1 : p ∈ places1 := List.mem_dedup.2 (List.mem_map.2 ⟨r1, hr1mem, hr1p⟩)
  have hpl2 : p ∈ places2 := List.mem_dedup.2 (List.mem_map.2 ⟨r2, hr2mem, hr2p⟩)
  have hany1 : (cands1.filter (fun r => r.place == p)).any
      (fun r => r.is_flooding) = true :=
    List.any_eq_true.2 ⟨r1, List.mem_filter.2 ⟨hr1mem, by simp [hr1p]⟩, hr1f⟩
  have hnosent : ((sortLe fs_order S0).filter (fun r => r.place == p)).any
      (fun r => r.alert_sent) = false := by
    rw [List.any_eq_false]
    intro r hr
    obtain ⟨hrS, hrp⟩ := List.mem_filter.1 hr
    rw [h0 r ((mem_sortLe fs_order S0 r).1 hrS) ((beq_iff_eq).1 hrp)]
    simp
  have hn1 : (process_place cands1 (sortLe fs_order S0) p).2 = true :=
    (process_place_notify_iff _ _ _).2 ⟨hany1, hnosent⟩
  have hrun1 := alert_flooding_ok x1 S0 n1 b1 hS0
  have hS1mem : ∃ r ∈ T1, r.place = p ∧ r.alert_sent = true :=
    mem_foldl_upsert (fun q => (process_place cands1 (sortLe fs_order S0) q).1)
      (fun q s hs => process_place_place cands1 (sortLe fs_order S0) q s hs) p places1 S0
      (List.nodup_dedup _) hpl1
      (process_place_sent cands1 (sortLe fs_order S0) p ⟨r1, hr1mem, hr1p, hr1f⟩)
  have hT1ne : T1 ≠ [] := by
    obtain ⟨r, hrmem, _, _⟩ := hS1mem
    exact List.ne_nil_of_mem hrmem
  have hrun2 := alert_flooding_ok x2 T1 n2 b2 hT1ne
  have hsent2 : ((sortLe fs_order T1).filter (fun r => r.place == p)).any
      (fun r => r.alert_sent) = true := by
    obtain ⟨r, hrmem, hrp, hrs⟩ := hS1mem
    exact List.any_eq_true.2
      ⟨r, List.mem_filter.2 ⟨(mem_sortLe fs_order T1 r).2 hrmem, by simp [hrp]⟩, hrs⟩
  have hn2 : (process_place cands2 (sortLe fs_order T1) p).2 = false := by
    cases hb : (process_place cands2 (sortLe fs_order T1) p).2 with
    | false => rfl
    | true =>
      have hx := (process_place_notify_iff _ _ _).1 hb
      rw [hsent2] at hx
      exact absurd hx.2 (by simp)
  refine ⟨T1, _, _, _, hrun1, hrun2, ?_⟩
  rw [count_filter_nodup places1 _ p (List.nodup_dedup _),
    count_filter_nodup places2 _ p (List.nodup_dedup _),
    if_pos ⟨hpl1, hn1⟩,
    if_neg (fun hc => by rw [hn2] at hc; exact absurd hc.2 (by simp))]

/-- Witness for C3: a single sensor flooding in two consecutive runs
starting from a flood-status table holding one prior not-alerted row;
both runs complete and the notify count across the two runs is one. -/
theorem alert_at_most_once_per_episode_witness :
    ([⟨"P", "S", 0, 50, false, false⟩] : List FSRow) ≠ [] ∧
    (∀ r ∈ ([⟨"P", "S", 0, 50, false, false⟩] : List FSRow),
      r.place = "P" → r.alert_sent = false) ∧
    (∃ r ∈ detect_flooding [⟨"P", "S", 0, 1, 1/2, 1/2⟩] 100,
        r.place = "P" ∧ r.is_flooding = true) ∧
    (∃ S1 calls1 S2 calls2,
      alert_flooding [⟨"P", "S", 0, 1, 1/2, 1/2⟩] [⟨"P", "S", 0, 50, false, false⟩]
          100 true true = Except.ok (S1, calls1) ∧
      alert_flooding [⟨"P", "S", 0, 1, 1/2, 1/2⟩] S1 100 true true = Except.ok (S2, calls2) ∧
      calls1.count "P" + calls2.count "P" = 1) :=
  ⟨by simp, by simp,
    ⟨⟨"P", "S", 0, 100, true, false⟩,
      by norm_num [detect_flooding, detect_group, sortLe, insertLe, above_alert_wl,
        cutoff_time, List.dedup, List.filterMap_cons, List.filter_cons], rfl, rfl⟩,
    alert_at_most_once_per_episode _ _ [⟨"P", "S", 0, 50, false, false⟩] 100 100 true true
      "P" (by simp) (by simp)
      ⟨⟨"P", "S", 0, 100, true, false⟩,
        by norm_num [detect_flooding, detect_group, sortLe, insertLe, above_alert_wl,
          cutoff_time, List.dedup, List.filterMap_cons, List.filter_cons], rfl, rfl⟩
      ⟨⟨"P", "S", 0, 100, true, false⟩,
        by norm_num [detect_flooding, detect_group, sortLe, insertLe, above_alert_wl,
          cutoff_time, List.dedup, List.filterMap_cons, List.filter_cons], rfl, rfl⟩⟩
